import Mathlib

/-!
Verification of the apistar framework adapters (`apistar/frameworks/wsgi.py`
and `apistar/frameworks/asyncio.py`): a shallow embedding of the response
finalizer, the exception handler, the permission-check stage and the
`__call__` pipeline dispatch of both adapters, together with theorems about
their behaviour.
-/

/-! ## JSON values and serialization

`Json` models the structured (JSON-serializable) Python values a handler may
return; `jsonDumps` models `json.dumps` with its default options: separators
`", "` and `": "`, `ensure_ascii=True` (non-ASCII and control characters are
escaped as `\uXXXX`, with the short escapes for backslash, quote, newline,
tab, carriage return, backspace and form feed).
-/

inductive Json where
  | null : Json
  | bool : Bool → Json
  | int : Int → Json
  | str : String → Json
  | arr : List Json → Json
  | obj : List (String × Json) → Json

/-- Lower-case hexadecimal digit. -/
def hexDigit (n : Nat) : Char :=
  if n < 10 then Char.ofNat (48 + n) else Char.ofNat (87 + n)

/-- Four-digit lower-case hexadecimal rendering, as in `\uXXXX` escapes. -/
def hex4 (n : Nat) : String :=
  String.mk [hexDigit (n / 4096 % 16), hexDigit (n / 256 % 16),
             hexDigit (n / 16 % 16), hexDigit (n % 16)]

/-- Escape one character the way Python's `json.dumps` (default
`ensure_ascii=True`) renders it inside a JSON string literal. -/
def jsonEscapeChar (c : Char) : String :=
  if c = '"' then "\\\""
  else if c = '\\' then "\\\\"
  else if c = '\n' then "\\n"
  else if c = '\t' then "\\t"
  else if c = '\r' then "\\r"
  else if c.toNat = 8 then "\\b"
  else if c.toNat = 12 then "\\f"
  else if c.toNat < 32 then "\\u" ++ hex4 c.toNat
  else if c.toNat < 127 then String.singleton c
  else if c.toNat < 65536 then "\\u" ++ hex4 c.toNat
  else
    "\\u" ++ hex4 (55296 + (c.toNat - 65536) / 1024) ++
    "\\u" ++ hex4 (56320 + (c.toNat - 65536) % 1024)

/-- A JSON string literal: quotes around the escaped characters. -/
def jsonString (s : String) : String :=
  "\"" ++ String.join (s.data.map jsonEscapeChar) ++ "\""

mutual

/-- Models `json.dumps(data)` with default options. -/
def jsonDumps : Json → String
  | .null => "null"
  | .bool true => "true"
  | .bool false => "false"
  | .int n => toString n
  | .str s => jsonString s
  | .arr xs => "[" ++ String.intercalate ", " (dumpsList xs) ++ "]"
  | .obj fs => "\x7b" ++ String.intercalate ", " (dumpsFields fs) ++ "\x7d"

/-- Serialized elements of a JSON array. -/
def dumpsList : List Json → List String
  | [] => []
  | j :: rest => jsonDumps j :: dumpsList rest

/-- Serialized `"key": value` pairs of a JSON object. -/
def dumpsFields : List (String × Json) → List String
  | [] => []
  | (k, v) :: rest => (jsonString k ++ ": " ++ jsonDumps v) :: dumpsFields rest

end

/-! ## Byte strings and UTF-8 -/

/-- Python `bytes` values. -/
abbrev Bytes := List UInt8

/-- UTF-8 encoding of one character. -/
def utf8EncodeCharM (c : Char) : Bytes :=
  let v := c.toNat
  if v < 128 then [UInt8.ofNat v]
  else if v < 2048 then
    [UInt8.ofNat (192 + v / 64), UInt8.ofNat (128 + v % 64)]
  else if v < 65536 then
    [UInt8.ofNat (224 + v / 4096), UInt8.ofNat (128 + v / 64 % 64),
     UInt8.ofNat (128 + v % 64)]
  else
    [UInt8.ofNat (240 + v / 262144), UInt8.ofNat (128 + v / 4096 % 64),
     UInt8.ofNat (128 + v / 64 % 64), UInt8.ofNat (128 + v % 64)]

/-- Models Python `s.encode('utf-8')`. -/
def utf8Bytes (s : String) : Bytes :=
  s.data.foldr (fun c acc => utf8EncodeCharM c ++ acc) []

/-! ## The data model of the adapters

`Data` models the dynamic Python value a handler (or the exception handler)
can put in a response body position: `None`, `str`, `bytes` or anything else
(structured, JSON-serializable) — exactly the cases `finalize_response`
distinguishes with `isinstance` checks.

`Response` models `apistar.http.Response`, which the adapters unpack as the
4-tuple `data, status, headers, content_type = ret`; the constructor defaults
`headers` to empty and `content_type` to `None` when omitted at call sites.
-/

inductive Data where
  | none : Data
  | text : String → Data
  | bytes : Bytes → Data
  | structured : Json → Data

/-- Response headers as an ordered list of pairs. -/
abbrev Headers := List (String × String)

structure Response where
  content : Data
  status : Nat
  headers : Headers
  content_type : Option String

/-- A handler's return value as seen by `finalize_response`: either already a
canonical `http.Response`, or a plain data value. -/
inductive ReturnValue where
  | data : Data → ReturnValue
  | response : Response → ReturnValue

/-! ## Exceptions

Modelled from the spec: the `apistar.exceptions` module is not part of the
source excerpt (only its use sites are). Per the spec, `Found` is a
redirect-as-exception carrying a status code and a location; the other
declared HTTP exceptions carry a status code and a detail payload, text or
structured; every remaining exception value is unrecognized, identified here
only by a tag. -/
inductive Exc where
  | found : Nat → String → Exc
  | httpException : Nat → Data → Exc
  | other : String → Exc

/-- Modelled from the spec: `exceptions.Forbidden()` is a declared HTTP
exception carrying the Forbidden status code (403) and a text detail naming
the condition. -/
def forbiddenExc : Exc := .httpException 403 (.text "Forbidden")

/-! ## Pipeline stage sequences

The `funcs = [...]` lists built in each adapter's `__call__`, as abstract
stage tags (the handler slot stands for whatever handler the router
returned). -/

inductive Stage where
  | check_permissions : Stage
  | handler : Stage
  | finalize_response : Stage
  | exception_handler : Stage
deriving DecidableEq

/-- The per-request required-state slots that `__call__` fills before running
a stage sequence: `kwargs` from the router lookup, `exc` on the error path.
(The raw environ/message and the response-headers accumulator carry no
pipeline-visible structure and are omitted.) -/
structure ReqState where
  kwargs : Option (List (String × String))
  exc : Option Exc

/-- Embeds the try/except control flow shared by both adapters' `__call__`:
look the route up, on success run the normal stage sequence, and on any
exception (from the lookup or from the normal run) run the error stage
sequence with the exception stored in the state's `exc` slot. The injector's
`run_all` is abstracted as a function from a stage sequence and a state to a
result. -/
def appCall (normalFuncs errorFuncs : List Stage)
    (lookup : Except Exc (List (String × String)))
    (runAll : List Stage → ReqState → Except Exc Response) :
    Except Exc Response :=
  match lookup with
  | .ok kwargs =>
      match runAll normalFuncs ⟨some kwargs, none⟩ with
      | .ok r => .ok r
      | .error e => runAll errorFuncs ⟨some kwargs, some e⟩
  | .error e => runAll errorFuncs ⟨none, some e⟩

/-! ## The WSGI adapter -/

namespace WSGIApp

/-- The stage list `funcs = [handler, self.finalize_response]` built by
`WSGIApp.__call__` on the normal path (wsgi.py line 113). -/
def normalFuncs : List Stage := [.handler, .finalize_response]

/-- The stage list `funcs = [self.exception_handler, self.finalize_response]`
built by `WSGIApp.__call__` on the error path (wsgi.py line 117). -/
def errorFuncs : List Stage := [.exception_handler, .finalize_response]

/-- The encode-by-type block of `WSGIApp.finalize_response` (wsgi.py lines
159-170): the content bytes and the content type assigned for each shape of
`data`. -/
def encodeData : Data → Bytes × String
  | .none => ([], "text/plain")
  | .text s => (utf8Bytes s, "text/html; charset=utf-8")
  | .bytes b => (b, "text/html; charset=utf-8")
  | .structured j => (utf8Bytes (jsonDumps j), "application/json")

/-- The tail of `WSGIApp.finalize_response` after the canonical-response
pass-through check: encode the extracted `data`, then apply the empty-body
normalization (lines 159-176). -/
def finalizeCore (data : Data) (status : Nat) (headers : Headers) : Response :=
  let (content, content_type) := encodeData data
  let (status, content_type) :=
    if content.isEmpty && status == 200 then (204, "text/plain")
    else (status, content_type)
  ⟨.bytes content, status, headers, some content_type⟩

/-- Embeds `WSGIApp.finalize_response` (wsgi.py lines 151-176). -/
def finalize_response (ret : ReturnValue) : Response :=
  match ret with
  | .response r =>
      match r.content_type with
      | some _ => r
      | none => finalizeCore r.content r.status r.headers
  | .data d => finalizeCore d 200 []

/-- Embeds `WSGIApp.exception_handler` (wsgi.py lines 138-149): `Found`
becomes an empty redirect response with a Location header, a recognized HTTP
exception becomes a response with its status and its detail (wrapped as a
message object when the detail is text), and anything else is re-raised. -/
def exception_handler (exc : Exc) : Except Exc Response :=
  match exc with
  | .found sc loc => .ok ⟨.text "", sc, [("Location", loc)], none⟩
  | .httpException sc detail =>
      let content : Data :=
        match detail with
        | .text s => .structured (.obj [("message", .str s)])
        | d => d
      .ok ⟨content, sc, [], none⟩
  | .other t => .error (.other t)

/-- Running the error stage sequence `[exception_handler, finalize_response]`:
the exception handler's return value feeds the finalizer; a re-raised
exception propagates. -/
def runErrorFuncs (exc : Exc) : Except Exc Response :=
  match exception_handler exc with
  | .ok r => .ok (finalize_response (.response r))
  | .error e => .error e

/-- End-to-end request handling with the normal run (router lookup plus
handler) abstracted by its outcome: on success the finalizer runs, on an
exception the error stage sequence runs and its own failure propagates to the
adapter boundary. -/
def handleRequest (normalRun : Except Exc ReturnValue) : Except Exc Response :=
  match normalRun with
  | .ok rv => .ok (finalize_response rv)
  | .error e => runErrorFuncs e

end WSGIApp

/-! ## The asyncio adapter -/

namespace ASyncIOApp

/-- The stage list `funcs = [self.check_permissions, handler,
self.finalize_response]` built by `ASyncIOApp.__call__` on the normal path
(asyncio.py line 109). -/
def normalFuncs : List Stage := [.check_permissions, .handler, .finalize_response]

/-- The stage list `funcs = [self.exception_handler, self.finalize_response]`
built by `ASyncIOApp.__call__` on the error path (asyncio.py line 113). -/
def errorFuncs : List Stage := [.exception_handler, .finalize_response]

/-- The encode-by-type block of `ASyncIOApp.finalize_response` (asyncio.py
lines 161-172); unlike the WSGI adapter, a `None` value gets no content
type. -/
def encodeData : Data → Bytes × Option String
  | .none => ([], none)
  | .text s => (utf8Bytes s, some "text/html; charset=utf-8")
  | .bytes b => (b, some "text/html; charset=utf-8")
  | .structured j => (utf8Bytes (jsonDumps j), some "application/json")

/-- The tail of `ASyncIOApp.finalize_response` after the canonical-response
pass-through check: encode the extracted `data`, then apply the empty-body
normalization, which here clears the content type to `None` (lines
161-178). -/
def finalizeCore (data : Data) (status : Nat) (headers : Headers) : Response :=
  let (content, content_type) := encodeData data
  let (status, content_type) :=
    if content.isEmpty && status == 200 then (204, none)
    else (status, content_type)
  ⟨.bytes content, status, headers, content_type⟩

/-- Embeds `ASyncIOApp.finalize_response` (asyncio.py lines 153-178). -/
def finalize_response (ret : ReturnValue) : Response :=
  match ret with
  | .response r =>
      match r.content_type with
      | some _ => r
      | none => finalizeCore r.content r.status r.headers
  | .data d => finalizeCore d 200 []

/-- Embeds `ASyncIOApp.exception_handler` (asyncio.py lines 130-141),
identical to the WSGI one. -/
def exception_handler (exc : Exc) : Except Exc Response :=
  match exc with
  | .found sc loc => .ok ⟨.text "", sc, [("Location", loc)], none⟩
  | .httpException sc detail =>
      let content : Data :=
        match detail with
        | .text s => .structured (.obj [("message", .str s)])
        | d => d
      .ok ⟨content, sc, [], none⟩
  | .other t => .error (.other t)

/-- Running the error stage sequence `[exception_handler, finalize_response]`:
the exception handler's return value feeds the finalizer; a re-raised
exception propagates. -/
def runErrorFuncs (exc : Exc) : Except Exc Response :=
  match exception_handler exc with
  | .ok r => .ok (finalize_response (.response r))
  | .error e => .error e

/-- A permission object, identified by name. Modelled from the spec: its
`has_permission() -> bool` is resolved and executed through the injector, so
its outcome is abstracted as an evaluation function from permissions to
booleans. -/
abbrev Perm := String

/-- The loop of `ASyncIOApp.check_permissions` (asyncio.py lines 149-151):
evaluate each permission in order and raise `Forbidden` at the first failing
one. Also returns the ordered list of permissions whose `has_permission` was
invoked. -/
def permLoop (eval : Perm → Bool) : List Perm → Except Exc Unit × List Perm
  | [] => (.ok (), [])
  | p :: ps =>
      if eval p then
        let (r, t) := permLoop eval ps
        (r, p :: t)
      else (.error forbiddenExc, [p])

/-- Embeds `ASyncIOApp.check_permissions` (asyncio.py lines 143-151): the
handler's `permissions` attribute when present (an attribute that is `None`
counts as present), else the settings' `PERMISSIONS` entry; when the chosen
value is `None` the check returns at once, otherwise the loop runs. -/
def check_permissions (handlerAttr : Option (Option (List Perm)))
    (settingsPerms : Option (List Perm)) (eval : Perm → Bool) :
    Except Exc Unit × List Perm :=
  let permissions :=
    match handlerAttr with
    | some v => v
    | none => settingsPerms
  match permissions with
  | none => (.ok (), [])
  | some ps => permLoop eval ps

/-- Running the normal stage sequence `[check_permissions, handler,
finalize_response]`, with the handler abstracted by its outcome; the boolean
records whether the handler stage was reached. -/
def runNormalFuncs (handlerAttr : Option (Option (List Perm)))
    (settingsPerms : Option (List Perm)) (eval : Perm → Bool)
    (handlerRun : Except Exc ReturnValue) : Except Exc Response × Bool :=
  match (check_permissions handlerAttr settingsPerms eval).1 with
  | .error e => (.error e, false)
  | .ok _ =>
      match handlerRun with
      | .error e => (.error e, true)
      | .ok rv => (.ok (finalize_response rv), true)

/-- End-to-end request handling for a successfully routed asyncio request: the
normal stage sequence, falling back to the error stage sequence on an
exception; the boolean records whether the handler stage was reached. -/
def handleRequest (handlerAttr : Option (Option (List Perm)))
    (settingsPerms : Option (List Perm)) (eval : Perm → Bool)
    (handlerRun : Except Exc ReturnValue) : Except Exc Response × Bool :=
  match runNormalFuncs handlerAttr settingsPerms eval handlerRun with
  | (.ok r, b) => (.ok r, b)
  | (.error e, b) => (runErrorFuncs e, b)

end ASyncIOApp

/-! ## Helper lemmas -/

/-- Every branch of the WSGI finalizer tail assigns a concrete content type. -/
lemma wsgi_finalizeCore_isSome (d : Data) (s : Nat) (hs : Headers) :
    (WSGIApp.finalizeCore d s hs).content_type.isSome = true := by
  rcases hed : WSGIApp.encodeData d with ⟨c, t⟩
  simp only [WSGIApp.finalizeCore, hed]
  split <;> rfl

/-- The WSGI finalizer always returns a response with a content type set. -/
lemma wsgi_finalize_isSome (ret : ReturnValue) :
    (WSGIApp.finalize_response ret).content_type.isSome = true := by
  cases ret with
  | data d => exact wsgi_finalizeCore_isSome d 200 []
  | response r =>
      rcases r with ⟨c, s, hs, o⟩
      cases o with
      | none => exact wsgi_finalizeCore_isSome c s hs
      | some ct => rfl

/-- The permission loop on a list whose first failing permission is `p`:
it stops at `p` with `Forbidden`, having invoked exactly the prefix up to
and including `p`. -/
lemma permLoop_first_false (eval : ASyncIOApp.Perm → Bool) :
    ∀ ps₁ : List ASyncIOApp.Perm, (∀ q ∈ ps₁, eval q = true) →
    ∀ (p : ASyncIOApp.Perm) (ps₂ : List ASyncIOApp.Perm), eval p = false →
    ASyncIOApp.permLoop eval (ps₁ ++ p :: ps₂) = (.error forbiddenExc, ps₁ ++ [p]) := by
  intro ps₁
  induction ps₁ with
  | nil =>
      intro _ p ps₂ hp
      simp [ASyncIOApp.permLoop, hp]
  | cons q rest ih =>
      intro hAll p ps₂ hp
      have hq : eval q = true := hAll q (List.mem_cons_self q rest)
      have hrest : ∀ r ∈ rest, eval r = true :=
        fun r hr => hAll r (List.mem_cons_of_mem q hr)
      simp [ASyncIOApp.permLoop, hq, ih hrest p ps₂ hp]

/-! ## Claims -/

/-- C1: for every handler return value that is not already a canonical
response with a content-type set, `finalize_response` encodes the data by
type — `None` yields an empty body; text yields its UTF-8 bytes with
content-type `text/html; charset=utf-8`; bytes pass through with the same
content-type; any other (structured) value yields its JSON serialization as
UTF-8 bytes with content-type `application/json` — so in particular the
structured value with a single field `x` mapped to 1 finalizes to status
200, content-type `application/json`, and the UTF-8 bytes of its JSON text,
in both adapters. -/
theorem claim_c1_encode_by_type :
    (∀ r : Response, r.content_type = none →
        WSGIApp.finalize_response (.response r)
          = WSGIApp.finalizeCore r.content r.status r.headers
        ∧ ASyncIOApp.finalize_response (.response r)
          = ASyncIOApp.finalizeCore r.content r.status r.headers)
    ∧ (∀ d : Data, WSGIApp.finalize_response (.data d) = WSGIApp.finalizeCore d 200 []
        ∧ ASyncIOApp.finalize_response (.data d) = ASyncIOApp.finalizeCore d 200 [])
    ∧ (WSGIApp.encodeData .none).1 = []
    ∧ (ASyncIOApp.encodeData .none).1 = []
    ∧ (∀ s, WSGIApp.encodeData (.text s) = (utf8Bytes s, "text/html; charset=utf-8"))
    ∧ (∀ s, ASyncIOApp.encodeData (.text s) = (utf8Bytes s, some "text/html; charset=utf-8"))
    ∧ (∀ b, WSGIApp.encodeData (.bytes b) = (b, "text/html; charset=utf-8"))
    ∧ (∀ b, ASyncIOApp.encodeData (.bytes b) = (b, some "text/html; charset=utf-8"))
    ∧ (∀ j, WSGIApp.encodeData (.structured j) = (utf8Bytes (jsonDumps j), "application/json"))
    ∧ (∀ j, ASyncIOApp.encodeData (.structured j)
        = (utf8Bytes (jsonDumps j), some "application/json"))
    ∧ WSGIApp.finalize_response (.data (.structured (.obj [("x", .int 1)])))
        = ⟨.bytes (utf8Bytes "\x7b\"x\": 1\x7d"), 200, [], some "application/json"⟩
    ∧ ASyncIOApp.finalize_response (.data (.structured (.obj [("x", .int 1)])))
        = ⟨.bytes (utf8Bytes "\x7b\"x\": 1\x7d"), 200, [], some "application/json"⟩ := by
  refine ⟨?_, fun d => ⟨rfl, rfl⟩, rfl, rfl, fun s => rfl, fun s => rfl, fun b => rfl,
    fun b => rfl, fun j => rfl, fun j => rfl, ?_, ?_⟩
  · intro r hr
    rcases r with ⟨c, s, hs, o⟩
    simp only at hr
    subst hr
    exact ⟨rfl, rfl⟩
  · rfl
  · rfl

/-- Witness for C1: a response without a content type is re-encoded rather
than passed through. -/
theorem claim_c1_encode_by_type_witness :
    WSGIApp.finalize_response (.response ⟨.text "a", 201, [], none⟩)
      = WSGIApp.finalizeCore (.text "a") 201 [] :=
  (claim_c1_encode_by_type.1 ⟨.text "a", 201, [], none⟩ rfl).1

/-- C2: when the encoded body is empty and the status is still 200, the
finalizer rewrites the status to 204 and sets the adapter-specific
empty-body content type — `text/plain` in the WSGI adapter, none in the
asyncio adapter; in particular a `None` return value finalizes to status
204 with an empty body and that per-adapter content type. -/
theorem claim_c2_empty_body_normalization :
    (∀ (d : Data) (st : Nat) (hs : Headers),
        (WSGIApp.encodeData d).1 = [] → st = 200 →
        WSGIApp.finalizeCore d st hs = ⟨.bytes [], 204, hs, some "text/plain"⟩)
    ∧ (∀ (d : Data) (st : Nat) (hs : Headers),
        (ASyncIOApp.encodeData d).1 = [] → st = 200 →
        ASyncIOApp.finalizeCore d st hs = ⟨.bytes [], 204, hs, none⟩)
    ∧ WSGIApp.finalize_response (.data .none) = ⟨.bytes [], 204, [], some "text/plain"⟩
    ∧ ASyncIOApp.finalize_response (.data .none) = ⟨.bytes [], 204, [], none⟩ := by
  refine ⟨?_, ?_, rfl, rfl⟩
  · intro d st hs h1 h2
    subst h2
    rcases hed : WSGIApp.encodeData d with ⟨c, t⟩
    rw [hed] at h1
    simp only at h1
    subst h1
    simp [WSGIApp.finalizeCore, hed]
  · intro d st hs h1 h2
    subst h2
    rcases hed : ASyncIOApp.encodeData d with ⟨c, t⟩
    rw [hed] at h1
    simp only at h1
    subst h1
    simp [ASyncIOApp.finalizeCore, hed]

/-- Witness for C2: the empty-body normalization at a concrete input. -/
theorem claim_c2_empty_body_normalization_witness :
    WSGIApp.finalizeCore .none 200 [] = ⟨.bytes [], 204, [], some "text/plain"⟩ :=
  claim_c2_empty_body_normalization.1 .none 200 [] rfl rfl

/-- C9: the WSGI finalizer always returns a response whose content type is
set, while the asyncio finalizer can return one whose content type is
`None` (for a `None` return value). -/
theorem claim_c9_content_type_invariant :
    (∀ ret : ReturnValue, (WSGIApp.finalize_response ret).content_type.isSome = true)
    ∧ (ASyncIOApp.finalize_response (.data .none)).content_type = none :=
  ⟨wsgi_finalize_isSome, rfl⟩

/-- C3 counterexample: the asyncio finalizer is not idempotent. Finalizing a
`None` return value yields a response with no content type; finalizing that
response again re-encodes its empty byte body and assigns the text/html
content type, so the two responses differ in their content-type field. -/
theorem claim_c3_idempotence_counterexample :
    (ASyncIOApp.finalize_response
        (.response (ASyncIOApp.finalize_response (.data .none)))).content_type
      = some "text/html; charset=utf-8"
    ∧ (ASyncIOApp.finalize_response (.data .none)).content_type = none
    ∧ decide ((ASyncIOApp.finalize_response
          (.response (ASyncIOApp.finalize_response (.data .none)))).content_type
        = (ASyncIOApp.finalize_response (.data .none)).content_type) = false :=
  ⟨rfl, rfl, rfl⟩

/-- C3 amended: any canonical response whose content type is set passes
through both finalizers unchanged; the WSGI finalizer is idempotent on every
return value; the asyncio finalizer is idempotent on exactly those return
values whose finalized content type is set (it is not idempotent when the
finalized content type is `None`, e.g. for a `None` return value). -/
theorem claim_c3_idempotence_amended :
    (∀ (r : Response) (ct : String), r.content_type = some ct →
        WSGIApp.finalize_response (.response r) = r
        ∧ ASyncIOApp.finalize_response (.response r) = r)
    ∧ (∀ ret : ReturnValue,
        WSGIApp.finalize_response (.response (WSGIApp.finalize_response ret))
          = WSGIApp.finalize_response ret)
    ∧ (∀ ret : ReturnValue,
        (ASyncIOApp.finalize_response ret).content_type.isSome = true →
        ASyncIOApp.finalize_response (.response (ASyncIOApp.finalize_response ret))
          = ASyncIOApp.finalize_response ret) := by
  refine ⟨?_, ?_, ?_⟩
  · intro r ct hr
    rcases r with ⟨c, s, hs, o⟩
    simp only at hr
    subst hr
    exact ⟨rfl, rfl⟩
  · intro ret
    have h := wsgi_finalize_isSome ret
    rcases hout : WSGIApp.finalize_response ret with ⟨c, s, hs, o⟩
    rw [hout] at h
    cases o with
    | none => simp at h
    | some ct => rfl
  · intro ret h
    rcases hout : ASyncIOApp.finalize_response ret with ⟨c, s, hs, o⟩
    rw [hout] at h
    cases o with
    | none => simp at h
    | some ct => rfl

/-- Witness for C3 (amended): pass-through at a concrete response. -/
theorem claim_c3_idempotence_amended_witness :
    WSGIApp.finalize_response (.response ⟨.bytes [], 200, [], some "text/plain"⟩)
      = ⟨.bytes [], 200, [], some "text/plain"⟩ :=
  (claim_c3_idempotence_amended.1 ⟨.bytes [], 200, [], some "text/plain"⟩
    "text/plain" rfl).1

/-- C4 counterexample: the WSGI adapter's normal stage sequence does not
start with a permission-check stage — it is `[handler, finalize_response]`,
so the claimed sequence `[check_permissions, handler, finalize_response]`
does not hold in both adapters. -/
theorem claim_c4_stage_sequence_counterexample :
    decide (WSGIApp.normalFuncs
      = [Stage.check_permissions, Stage.handler, Stage.finalize_response]) = false := by
  decide

/-- C4 amended: for every successfully routed request, the asyncio adapter's
stage sequence is permission checks, then the handler, then response
finalization, while the WSGI adapter's stage sequence is just the handler
followed by response finalization, with no permission stage. -/
theorem claim_c4_stage_sequences_amended :
    ASyncIOApp.normalFuncs = [Stage.check_permissions, Stage.handler, Stage.finalize_response]
    ∧ WSGIApp.normalFuncs = [Stage.handler, Stage.finalize_response] :=
  ⟨rfl, rfl⟩

/-- C5: whenever the normal pipeline run fails — the router lookup raises, or
the normal stage sequence raises — `__call__` runs the error stage sequence,
which in both adapters is `[exception_handler, finalize_response]`, with the
exception stored in the request state's `exc` slot (and the `kwargs` slot
still holding whatever the lookup produced). -/
theorem claim_c5_error_sequence :
    ∀ (nf ef : List Stage) (lookup : Except Exc (List (String × String)))
      (runAll : List Stage → ReqState → Except Exc Response)
      (e : Exc) (kw : List (String × String)),
    (lookup = .error e →
        appCall nf ef lookup runAll = runAll ef ⟨none, some e⟩)
    ∧ (lookup = .ok kw → runAll nf ⟨some kw, none⟩ = .error e →
        appCall nf ef lookup runAll = runAll ef ⟨some kw, some e⟩)
    ∧ WSGIApp.errorFuncs = [Stage.exception_handler, Stage.finalize_response]
    ∧ ASyncIOApp.errorFuncs = [Stage.exception_handler, Stage.finalize_response] := by
  intro nf ef lookup runAll e kw
  refine ⟨?_, ?_, rfl, rfl⟩
  · intro h
    subst h
    rfl
  · intro h1 h2
    subst h1
    simp [appCall, h2]

/-- Witness for C5: a failing lookup at concrete inputs dispatches to the
error sequence. -/
theorem claim_c5_error_sequence_witness :
    appCall WSGIApp.normalFuncs WSGIApp.errorFuncs (.error (.other "boom"))
        (fun _ _ => .ok ⟨.bytes [], 200, [], some "text/plain"⟩)
      = (fun (_ : List Stage) (_ : ReqState) =>
          .ok (⟨.bytes [], 200, [], some "text/plain"⟩ : Response))
          WSGIApp.errorFuncs ⟨none, some (.other "boom")⟩ :=
  (claim_c5_error_sequence WSGIApp.normalFuncs WSGIApp.errorFuncs
    (.error (.other "boom"))
    (fun _ _ => .ok ⟨.bytes [], 200, [], some "text/plain"⟩)
    (.other "boom") []).1 rfl

/-- C6: `check_permissions` uses the handler's `permissions` attribute (or,
absent that attribute, the settings' `PERMISSIONS` entry), invokes each
permission in order, and raises `Forbidden` at the first one that returns
false, invoking no later permission; the handler stage never runs, and the
finalized response carries the Forbidden status code 403 and the structured
message body rendered as JSON. -/
theorem claim_c6_first_failing_permission :
    ∀ (ps₁ ps₂ : List ASyncIOApp.Perm) (p : ASyncIOApp.Perm)
      (eval : ASyncIOApp.Perm → Bool)
      (settingsPerms : Option (List ASyncIOApp.Perm))
      (handlerRun : Except Exc ReturnValue),
    (∀ q ∈ ps₁, eval q = true) → eval p = false →
    ASyncIOApp.permLoop eval (ps₁ ++ p :: ps₂) = (.error forbiddenExc, ps₁ ++ [p])
    ∧ ASyncIOApp.check_permissions none settingsPerms eval
        = (match settingsPerms with
           | none => (.ok (), [])
           | some qs => ASyncIOApp.permLoop eval qs)
    ∧ ASyncIOApp.handleRequest (some (some (ps₁ ++ p :: ps₂))) settingsPerms eval handlerRun
        = (.ok ⟨.bytes (utf8Bytes "\x7b\"message\": \"Forbidden\"\x7d"), 403, [],
                some "application/json"⟩, false)
    ∧ ASyncIOApp.handleRequest none (some (ps₁ ++ p :: ps₂)) eval handlerRun
        = (.ok ⟨.bytes (utf8Bytes "\x7b\"message\": \"Forbidden\"\x7d"), 403, [],
                some "application/json"⟩, false) := by
  intro ps₁ ps₂ p eval settingsPerms handlerRun hAll hp
  have hl := permLoop_first_false eval ps₁ hAll p ps₂ hp
  refine ⟨hl, rfl, ?_, ?_⟩
  · simp only [ASyncIOApp.handleRequest, ASyncIOApp.runNormalFuncs,
      ASyncIOApp.check_permissions, hl]
    rfl
  · simp only [ASyncIOApp.handleRequest, ASyncIOApp.runNormalFuncs,
      ASyncIOApp.check_permissions, hl]
    rfl

/-- Witness for C6: one always-failing permission at concrete inputs. -/
theorem claim_c6_first_failing_permission_witness :
    ASyncIOApp.handleRequest (some (some ["p0"])) none (fun _ => false) (.ok (.data .none))
      = (.ok ⟨.bytes (utf8Bytes "\x7b\"message\": \"Forbidden\"\x7d"), 403, [],
              some "application/json"⟩, false) :=
  (claim_c6_first_failing_permission [] [] "p0" (fun _ => false) none (.ok (.data .none))
    (fun q hq => absurd hq (List.not_mem_nil q)) rfl).2.2.1

/-- C7: a raised `Found` redirect with status 302 and a location runs the
error sequence `[exception_handler, finalize_response]` to a response with
status 302, a `Location` header holding that location, and an empty body, in
both adapters. -/
theorem claim_c7_found_redirect :
    ∀ loc : String,
    WSGIApp.runErrorFuncs (.found 302 loc)
      = .ok ⟨.bytes [], 302, [("Location", loc)], some "text/html; charset=utf-8"⟩
    ∧ ASyncIOApp.runErrorFuncs (.found 302 loc)
      = .ok ⟨.bytes [], 302, [("Location", loc)], some "text/html; charset=utf-8"⟩ :=
  fun _ => ⟨rfl, rfl⟩

/-- C8: an exception that is neither `Found` nor a recognized HTTP exception
is re-raised by `exception_handler`, so it propagates out of the error stage
sequence and out of the whole request run to the adapter boundary; a
recognized HTTP exception is instead converted to a response, with a text
detail wrapped as a structured message object and a structured detail passed
through. -/
theorem claim_c8_unrecognized_reraise :
    ∀ (t : String) (sc : Nat) (s : String) (j : Json)
      (eval : ASyncIOApp.Perm → Bool),
    WSGIApp.exception_handler (.other t) = .error (.other t)
    ∧ ASyncIOApp.exception_handler (.other t) = .error (.other t)
    ∧ WSGIApp.runErrorFuncs (.other t) = .error (.other t)
    ∧ ASyncIOApp.runErrorFuncs (.other t) = .error (.other t)
    ∧ WSGIApp.handleRequest (.error (.other t)) = .error (.other t)
    ∧ (ASyncIOApp.handleRequest none none eval (.error (.other t))).1
        = .error (.other t)
    ∧ WSGIApp.exception_handler (.httpException sc (.text s))
        = .ok ⟨.structured (.obj [("message", .str s)]), sc, [], none⟩
    ∧ ASyncIOApp.exception_handler (.httpException sc (.text s))
        = .ok ⟨.structured (.obj [("message", .str s)]), sc, [], none⟩
    ∧ WSGIApp.exception_handler (.httpException sc (.structured j))
        = .ok ⟨.structured j, sc, [], none⟩
    ∧ ASyncIOApp.exception_handler (.httpException sc (.structured j))
        = .ok ⟨.structured j, sc, [], none⟩ :=
  fun _ _ _ _ _ => ⟨rfl, rfl, rfl, rfl, rfl, rfl, rfl, rfl, rfl, rfl⟩

/-- C10: with no `permissions` attribute on the handler and no `PERMISSIONS`
entry in the settings, `check_permissions` returns without raising and
without evaluating any permission, and the request proceeds to the handler
stage. -/
theorem claim_c10_default_allow :
    ∀ (eval : ASyncIOApp.Perm → Bool) (rv : ReturnValue),
    ASyncIOApp.check_permissions none none eval = (.ok (), [])
    ∧ ASyncIOApp.handleRequest none none eval (.ok rv)
        = (.ok (ASyncIOApp.finalize_response rv), true) :=
  fun _ _ => ⟨rfl, rfl⟩
